import Mathlib

/-!
# Spectra client — session reconciliation and message send, shallowly embedded

This file embeds the decision logic of the Spectra chat client in Lean 4:

* the data model (`User`, `ChatSession`, `BackendMessage`, UI `Message`,
  `Source`, `ChatResponse`) mirroring the TypeScript interfaces of
  `lib/api.ts` and the chat page component;
* `initializeUserAndChat`, the client session reconciler run on every change
  of the authentication session;
* `handleSubmit`, the message send handler;
* `handleAuthStateChange`, the relevant part of the auth-state listener.

Backend calls are modelled as oracles returning `Except String α`; the
browser `localStorage` session pointer is explicit state (`Option String`).
Each run also produces a trace of backend calls (`BackendCall`) and of
pointer mutations (`PtrOp`) so that frame conditions about side effects can
be stated.
-/

namespace Spectra

/-- Message role, mirroring the TS union type `"user" | "assistant"`. -/
inductive Role where
  | user
  | assistant
deriving DecidableEq, Repr

/-- UI message kind, mirroring the TS union type `"user" | "ai"`. -/
inductive MsgType where
  | user
  | ai
deriving DecidableEq, Repr

/-- `interface User` of `lib/api.ts`. -/
structure User where
  id : String
  email : String
  name : String
  created_at : String
deriving DecidableEq, Repr

/-- `interface ChatSession` of `lib/api.ts`. -/
structure ChatSession where
  id : String
  user_id : String
  title : String
  created_at : String
deriving DecidableEq, Repr

/-- `interface Message` of `lib/api.ts` (a backend message row). -/
structure BackendMessage where
  id : String
  session_id : String
  role : Role
  content : String
  created_at : String
deriving DecidableEq, Repr

/-- `interface Source` of the chat page component. -/
structure Source where
  title : Option String
  url : Option String
  score : Option Rat
deriving DecidableEq, Repr

/-- `interface Message` of the chat page component (a rendered bubble);
`sources` is the optional `sources?` field. -/
structure Message where
  id : String
  type : MsgType
  content : String
  sources : Option (List Source)
deriving DecidableEq, Repr

/-- `interface ChatResponse` of `lib/api.ts`; `sources` is `none` when the
backend JSON omits the field (the component guards with `data.sources || []`). -/
structure ChatResponse where
  query : String
  sources : Option (List Source)
  final_answer : String
deriving DecidableEq, Repr

/-- The authenticated principal: `session.user.email` together with the
optional `session.user.user_metadata?.full_name`. -/
structure Principal where
  email : String
  full_name : Option String
deriving DecidableEq, Repr

/-- The slice of component state (`useState` hooks) that the embedded
handlers read or write. -/
structure UIState where
  messages : List Message
  input : String
  loading : Bool
  error : Option String
  currentUser : Option User
  chatSession : Option ChatSession
  initLoading : Bool
  profileOpen : Bool
deriving DecidableEq, Repr

/-- One backend HTTP call, recorded with its arguments. -/
inductive BackendCall where
  | registerUser (email : String) (name : String)
  | getUserSessions (email : String)
  | createChatSession (email : String) (title : String)
  | fetchMessages (sessionId : String)
  | storeMessage (sessionId : String) (role : Role) (content : String)
  | sendChatMessage (message : String)
deriving DecidableEq, Repr

/-- One mutation of the persisted `current_session_id` localStorage key:
`saveCurrentSession` or `clearCurrentSession`. -/
inductive PtrOp where
  | save (id : String)
  | clear
deriving DecidableEq, Repr

/-- Backend oracles for initialization: each models the outcome of the
corresponding `lib/api.ts` function applied to the given arguments. -/
structure InitContext where
  registerUser : String → String → Except String User
  getUserSessions : String → Except String (List ChatSession)
  createChatSession : String → String → Except String ChatSession
  fetchMessages : String → Except String (List BackendMessage)

/-- Outcome of one run of the reconciler: final component state, final
localStorage pointer, the pointer mutations performed, the backend calls
issued, and the `shouldLoadMessages` flag the run ended with. -/
structure InitOutcome where
  ui : UIState
  pointer : Option String
  ptrOps : List PtrOp
  calls : List BackendCall
  hydrate : Bool
deriving Repr

/-- The name passed to `registerUser`:
`session.user.user_metadata?.full_name || session.user.email.split("@")[0]`
(the `||` also rejects an empty string). -/
def resolveRegisterName (p : Principal) : String :=
  match p.full_name with
  | some n => if n = "" then (p.email.splitOn "@").headD "" else n
  | none => (p.email.splitOn "@").headD ""

/-- Backend message → UI message, as in the hydration step of
`initializeUserAndChat`: `type` is `"user"` exactly when `msg.role === "user"`,
and no `sources` field is attached. -/
def toUIMessage (m : BackendMessage) : Message :=
  { id := m.id
    type := if m.role = Role.user then MsgType.user else MsgType.ai
    content := m.content
    sources := none }

/-- The outer `catch` of `initializeUserAndChat`: set the error message,
clear the localStorage pointer, drop the chat session, empty the message
list; `finally` turns `initLoading` off. `currentUser` is left as it was. -/
def initFailure (st : UIState) (e : String) (ops : List PtrOp)
    (calls : List BackendCall) : InitOutcome :=
  { ui := { st with
              error := some e
              chatSession := none
              messages := []
              initLoading := false }
    pointer := none
    ptrOps := ops ++ [PtrOp.clear]
    calls := calls
    hydrate := false }

/-- Step 4 of the reconciler (`shouldLoadMessages` handling): with the active
session chosen, optionally hydrate its history; a fetch failure only sets a
warning and leaves `messages` untouched. `finally` turns `initLoading` off. -/
def initHydrate (ctx : InitContext) (st : UIState) (active : ChatSession)
    (shouldLoad : Bool) (pointer : Option String) (ops : List PtrOp)
    (calls : List BackendCall) : InitOutcome :=
  let st := { st with chatSession := some active }
  if shouldLoad then
    match ctx.fetchMessages active.id with
    | Except.ok ms =>
        { ui := { st with messages := ms.map toUIMessage, initLoading := false }
          pointer := pointer
          ptrOps := ops
          calls := calls ++ [BackendCall.fetchMessages active.id]
          hydrate := shouldLoad }
    | Except.error _ =>
        { ui := { st with
                    error := some "Failed to load message history"
                    initLoading := false }
          pointer := pointer
          ptrOps := ops
          calls := calls ++ [BackendCall.fetchMessages active.id]
          hydrate := shouldLoad }
  else
    { ui := { st with messages := [], initLoading := false }
      pointer := pointer
      ptrOps := ops
      calls := calls
      hydrate := shouldLoad }

/-- The early return of `initializeUserAndChat` when `!session?.user?.email`
(no session, or a falsy — empty — email): only `initLoading` is turned off. -/
def initNoPrincipal (st : UIState) (pointer : Option String) : InitOutcome :=
  { ui := { st with initLoading := false }
    pointer := pointer
    ptrOps := []
    calls := []
    hydrate := false }

/-- The `initializeUserAndChat` effect body of the chat component, as a pure
state transformer.  `sess` is the Supabase auth session (`none` when absent;
a falsy empty email also takes the early return), `st` the current component
state and `pointer` the persisted `current_session_id` localStorage value
(a falsy empty string counts as absent in the `storedSessionId &&` guard). -/
def initializeUserAndChat (ctx : InitContext) (sess : Option Principal)
    (st : UIState) (pointer : Option String) : InitOutcome :=
  match sess with
  | none => initNoPrincipal st pointer
  | some p =>
    if p.email = "" then initNoPrincipal st pointer else
    let st := { st with initLoading := true, error := none }
    let regName := resolveRegisterName p
    let calls := [BackendCall.registerUser p.email regName]
    match ctx.registerUser p.email regName with
    | Except.error e => initFailure st e [] calls
    | Except.ok user =>
      let st := { st with currentUser := some user }
      let calls := calls ++ [BackendCall.getUserSessions p.email]
      match ctx.getUserSessions p.email with
      | Except.error e => initFailure st e [] calls
      | Except.ok sessions =>
        -- Step 3: try the stored pointer against the fetched session list.
        let stored : Option String :=
          match pointer with
          | some sid => if sid = "" then none else some sid
          | none => none
        let stale : Bool :=
          match stored with
          | some sid => sessions.length > 0 &&
              (sessions.find? (fun s => s.id = sid)).isNone
          | none => false
        let found : Option ChatSession :=
          match stored with
          | some sid =>
              if sessions.length > 0 then sessions.find? (fun s => s.id = sid)
              else none
          | none => none
        let pointer := if stale then none else pointer
        let ops : List PtrOp := if stale then [PtrOp.clear] else []
        match found with
        | some active =>
            initHydrate ctx st active true pointer ops calls
        | none =>
          match sessions with
          | active :: _ =>
              initHydrate ctx st active true (some active.id)
                (ops ++ [PtrOp.save active.id]) calls
          | [] =>
            let calls := calls ++
              [BackendCall.createChatSession p.email "New Conversation"]
            match ctx.createChatSession p.email "New Conversation" with
            | Except.error e => initFailure st e ops calls
            | Except.ok fresh =>
                initHydrate ctx st fresh false (some fresh.id)
                  (ops ++ [PtrOp.save fresh.id]) calls

/-- The sign-out branch of the `onAuthStateChange` listener: when the new
session is `none` it clears the localStorage pointer, the cached user, the
chat session, the messages and the profile dropdown; otherwise it touches
none of this state. -/
def handleAuthStateChange (newSession : Option Principal) (st : UIState)
    (pointer : Option String) : UIState × Option String × List PtrOp :=
  match newSession with
  | none =>
      ({ st with
           currentUser := none
           chatSession := none
           messages := []
           profileOpen := false }, none, [PtrOp.clear])
  | some _ => (st, pointer, [])

/-- A sign-out event as the component experiences it: the listener fires with
a `none` session, and the change of the `session` state re-runs the
`initializeUserAndChat` effect with no principal. -/
def signOutReconcile (ctx : InitContext) (st : UIState)
    (pointer : Option String) : InitOutcome :=
  let step := handleAuthStateChange none st pointer
  let out := initializeUserAndChat ctx none step.1 step.2.1
  { out with ptrOps := step.2.2 ++ out.ptrOps }

/-- A row of the backend message store, as written by a successful
`storeMessage(session_id, role, content)` call. -/
structure StoredMessage where
  session_id : String
  role : Role
  content : String
deriving DecidableEq, Repr

/-- Backend oracles for the submit handler: the outcome of `storeMessage`
for given arguments and the outcome of `sendChatMessage` for a given query. -/
structure SubmitContext where
  storeMessage : String → Role → String → Except String Unit
  sendChatMessage : String → Except String ChatResponse

/-- Outcome of one run of `handleSubmit`: final component state, final
backend message store contents, and the backend calls issued. -/
structure SubmitOutcome where
  ui : UIState
  store : List StoredMessage
  calls : List BackendCall
deriving Repr

/-- JS `String.prototype.trim` as used by the guard `!input.trim()`:
strip whitespace from both ends, modelled over the character list. -/
def jsTrim (s : String) : String :=
  String.mk
    (((s.data.dropWhile Char.isWhitespace).reverse.dropWhile
      Char.isWhitespace).reverse)

/-- The `catch`/`finally` tail of `handleSubmit`: surface the error, stop
the loading indicator. -/
def submitFailure (st : UIState) (e : String) (store : List StoredMessage)
    (calls : List BackendCall) : SubmitOutcome :=
  { ui := { st with error := some e, loading := false }
    store := store
    calls := calls }

/-- The `handleSubmit` handler of the chat component, as a pure state
transformer over the component state and the backend message store.
`now` stands for `Date.now()`; `store` is the backend message table, to
which each successful `storeMessage` call appends a row. -/
def handleSubmit (ctx : SubmitContext) (sess : Option Principal)
    (st : UIState) (store : List StoredMessage) (now : Nat) : SubmitOutcome :=
  if jsTrim st.input = "" then
    { ui := st, store := store, calls := [] }
  else
    let deny : SubmitOutcome :=
      { ui := { st with error := some "Please sign in to chat" }
        store := store
        calls := [] }
    match sess with
    | none => deny
    | some q =>
      if q.email = "" then deny else
      match st.chatSession with
      | none =>
          let msg := "Chat session not initialized. Please refresh the page."
          { ui := { st with error := some msg }
            store := store
            calls := [] }
      | some cs =>
        let userMessage : Message :=
          { id := toString now, type := MsgType.user, content := st.input,
            sources := none }
        let userQuery := st.input
        let st := { st with
                      messages := st.messages ++ [userMessage]
                      input := ""
                      loading := true
                      error := none }
        let calls := [BackendCall.storeMessage cs.id Role.user userQuery]
        match ctx.storeMessage cs.id Role.user userQuery with
        | Except.error e => submitFailure st e store calls
        | Except.ok _ =>
          let store := store ++
            [{ session_id := cs.id, role := Role.user, content := userQuery }]
          let calls := calls ++ [BackendCall.sendChatMessage userQuery]
          match ctx.sendChatMessage userQuery with
          | Except.error e => submitFailure st e store calls
          | Except.ok data =>
            let calls := calls ++
              [BackendCall.storeMessage cs.id Role.assistant data.final_answer]
            match ctx.storeMessage cs.id Role.assistant data.final_answer with
            | Except.error e => submitFailure st e store calls
            | Except.ok _ =>
              let store := store ++
                [{ session_id := cs.id, role := Role.assistant,
                   content := data.final_answer }]
              let aiMessage : Message :=
                { id := toString (now + 1)
                  type := MsgType.ai
                  content := if data.final_answer = ""
                    then "No response generated" else data.final_answer
                  sources := some (data.sources.getD []) }
              { ui := { st with
                          messages := st.messages ++ [aiMessage]
                          loading := false }
                store := store
                calls := calls }

/-! ## Concrete fixtures (used by witnesses) -/

/-- Fixture user row. -/
def wUser : User :=
  { id := "u1", email := "ada@spectra.dev", name := "Ada", created_at := "t0" }

/-- Fixture session with id `"abc"` (most recent). -/
def wSessA : ChatSession :=
  { id := "abc", user_id := "u1", title := "A", created_at := "t2" }

/-- Fixture session with id `"xyz"`. -/
def wSessX : ChatSession :=
  { id := "xyz", user_id := "u1", title := "X", created_at := "t1" }

/-- Fixture freshly created session. -/
def wSessNew : ChatSession :=
  { id := "fresh", user_id := "u1", title := "New Conversation", created_at := "t3" }

/-- Fixture backend message row. -/
def wBackendMsg : BackendMessage :=
  { id := "m1", session_id := "abc", role := Role.user, content := "hi",
    created_at := "t4" }

/-- Fixture authenticated principal. -/
def wPrincipal : Principal :=
  { email := "ada@spectra.dev", full_name := some "Ada" }

/-- Fixture fresh component state (as on first mount). -/
def wState : UIState :=
  { messages := [], input := "", loading := false, error := none,
    currentUser := none, chatSession := none, initLoading := true,
    profileOpen := false }

/-- Fixture backend where every initialization call succeeds and the session
list is `[wSessA, wSessX]`. -/
def wCtx : InitContext :=
  { registerUser := fun _ _ => Except.ok wUser
    getUserSessions := fun _ => Except.ok [wSessA, wSessX]
    createChatSession := fun _ _ => Except.ok wSessNew
    fetchMessages := fun _ => Except.ok [wBackendMsg] }

/-- Fixture backend with an empty session list. -/
def wCtxEmpty : InitContext :=
  { wCtx with getUserSessions := fun _ => Except.ok [] }

/-- Fixture backend where history hydration fails. -/
def wCtxFetchFail : InitContext :=
  { wCtx with fetchMessages := fun _ => Except.error "network" }

/-- Fixture backend where the identity upsert fails. -/
def wCtxRegFail : InitContext :=
  { wCtx with registerUser := fun _ _ => Except.error "register down" }

/-- Fixture backend where the session-list fetch fails. -/
def wCtxListFail : InitContext :=
  { wCtx with getUserSessions := fun _ => Except.error "list down" }

/-- Fixture backend where the session list is empty and creation fails. -/
def wCtxCreateFail : InitContext :=
  { wCtxEmpty with createChatSession := fun _ _ => Except.error "create down" }

/-- Fixture source card. -/
def wSource1 : Source :=
  { title := some "Doc", url := some "https://example.com/a", score := some 1 }

/-- Fixture source card without title or score. -/
def wSource2 : Source :=
  { title := none, url := some "https://example.com/b", score := none }

/-- Fixture submit backend where every call succeeds. -/
def wSubCtx : SubmitContext :=
  { storeMessage := fun _ _ _ => Except.ok ()
    sendChatMessage := fun q =>
      Except.ok
        { query := q
          sources := some [wSource1, wSource2]
          final_answer := "Spectra is..." } }

/-- Fixture submit backend whose synthesized answer is empty. -/
def wSubCtxEmptyAnswer : SubmitContext :=
  { wSubCtx with
      sendChatMessage := fun q =>
        Except.ok { query := q, sources := none, final_answer := "" } }

/-- Fixture submit backend where synthesis fails. -/
def wSubCtxSynthFail : SubmitContext :=
  { wSubCtx with sendChatMessage := fun _ => Except.error "synthesis down" }

/-- Fixture submit backend where only the assistant-side store fails. -/
def wSubCtxStoreAssistantFail : SubmitContext :=
  { storeMessage := fun _ r _ =>
      if r = Role.assistant then Except.error "store down" else Except.ok ()
    sendChatMessage := wSubCtx.sendChatMessage }

/-- Fixture rendered bubble already displayed before a reconciler re-run. -/
def wOldBubble : Message :=
  { id := "m0", type := MsgType.user, content := "earlier", sources := none }

/-- Fixture component state whose view already shows a message (as after a
previous hydration, before the effect re-runs). -/
def wStateWithHistory : UIState :=
  { wState with messages := [wOldBubble] }

/-- Fixture component state ready to submit `"What is Spectra?"`. -/
def wSubmitState : UIState :=
  { wState with
      input := "What is Spectra?"
      chatSession := some wSessA
      initLoading := false }

/-! ## Claim theorems -/

/-- C2: when the cached local pointer matches an entry of the backend session
list, the reconciler selects exactly the session identified by the pointer,
keeps that pointer persisted, marks hydrate, fetches that session's message
history, and displays it when the fetch succeeds. -/
theorem reconcile_matching_pointer_selects_it
    (ctx : InitContext) (p : Principal) (st : UIState) (sid : String)
    (S : List ChatSession) (sP : ChatSession) (u : User)
    (hp : ¬p.email = "") (hsid : ¬sid = "")
    (hreg : ctx.registerUser p.email (resolveRegisterName p) = Except.ok u)
    (hs : ctx.getUserSessions p.email = Except.ok S)
    (hfind : S.find? (fun s => s.id = sid) = some sP)
    (o : InitOutcome)
    (ho : initializeUserAndChat ctx (some p) st (some sid) = o) :
    o.ui.chatSession = some sP ∧ sP.id = sid ∧ o.hydrate = true ∧
      o.pointer = some sid ∧ BackendCall.fetchMessages sP.id ∈ o.calls ∧
      ∀ ms, ctx.fetchMessages sP.id = Except.ok ms →
        o.ui.messages = ms.map toUIMessage := by
  subst ho
  have hid : sP.id = sid := by
    have h := List.find?_some hfind
    simpa using h
  subst hid
  have hne : S ≠ [] := by
    rintro rfl
    simp at hfind
  obtain ⟨a, t, rfl⟩ : ∃ a t, S = a :: t := by
    cases S with
    | nil => exact absurd rfl hne
    | cons a t => exact ⟨a, t, rfl⟩
  cases hf : ctx.fetchMessages sP.id with
  | ok ms =>
      simp [initializeUserAndChat, initHydrate, hp, hsid, hreg, hs, hfind, hf]
  | error e =>
      simp [initializeUserAndChat, initHydrate, hp, hsid, hreg, hs, hfind, hf]

/-- C2 witness: stored pointer `"abc"`, session list `[abc, xyz]`: session
`"abc"` is selected and its history is hydrated. -/
theorem reconcile_matching_pointer_selects_it_witness :
    (initializeUserAndChat wCtx (some wPrincipal) wState (some "abc")).ui.chatSession
        = some wSessA ∧
      (initializeUserAndChat wCtx (some wPrincipal) wState (some "abc")).hydrate
        = true ∧
      (initializeUserAndChat wCtx (some wPrincipal) wState (some "abc")).ui.messages
        = [wBackendMsg].map toUIMessage := by
  have h := reconcile_matching_pointer_selects_it wCtx wPrincipal wState "abc"
    [wSessA, wSessX] wSessA wUser (by decide) (by decide) rfl rfl (by decide)
    _ rfl
  exact ⟨h.1, h.2.2.1, h.2.2.2.2.2 [wBackendMsg] rfl⟩

/-- C3: with an empty backend session list, reconciliation issues exactly one
create call, with the default title "New Conversation", selects the created
session, persists its identifier as the local pointer, marks hydrate false,
leaves the message list empty and never fetches messages. -/
theorem reconcile_empty_list_creates_default_session
    (ctx : InitContext) (p : Principal) (st : UIState) (ptr : Option String)
    (u : User) (ns : ChatSession)
    (hp : ¬p.email = "")
    (hreg : ctx.registerUser p.email (resolveRegisterName p) = Except.ok u)
    (hs : ctx.getUserSessions p.email = Except.ok [])
    (hc : ctx.createChatSession p.email "New Conversation" = Except.ok ns)
    (o : InitOutcome)
    (ho : initializeUserAndChat ctx (some p) st ptr = o) :
    o.ui.chatSession = some ns ∧ o.pointer = some ns.id ∧ o.hydrate = false ∧
      o.ui.messages = [] ∧
      o.calls = [BackendCall.registerUser p.email (resolveRegisterName p),
        BackendCall.getUserSessions p.email,
        BackendCall.createChatSession p.email "New Conversation"] ∧
      ∀ sid, BackendCall.fetchMessages sid ∉ o.calls := by
  subst ho
  cases ptr with
  | none => simp [initializeUserAndChat, initHydrate, hp, hreg, hs, hc]
  | some sid =>
      by_cases hsid : sid = "" <;>
        simp [initializeUserAndChat, initHydrate, hp, hsid, hreg, hs, hc]

/-- C3 witness: fresh sign-in with empty session list: one session created
with title "New Conversation", empty message view, hydrate false. -/
theorem reconcile_empty_list_creates_default_session_witness :
    (initializeUserAndChat wCtxEmpty (some wPrincipal) wState none).ui.chatSession
        = some wSessNew ∧
      (initializeUserAndChat wCtxEmpty (some wPrincipal) wState none).pointer
        = some "fresh" ∧
      (initializeUserAndChat wCtxEmpty (some wPrincipal) wState none).hydrate
        = false ∧
      (initializeUserAndChat wCtxEmpty (some wPrincipal) wState none).ui.messages
        = [] := by
  have h := reconcile_empty_list_creates_default_session wCtxEmpty wPrincipal
    wState none wUser wSessNew (by decide) rfl rfl rfl _ rfl
  exact ⟨h.1, h.2.1, h.2.2.1, h.2.2.2.1⟩

/-- C1: when the cached pointer is absent from the fetched session list
(including an absent pointer or an empty list), the reconciler never selects
a non-existent session: with a non-empty list it selects and persists the
most recent session, with an empty list it selects and persists the newly
created session, and whatever it selects, the persisted pointer is that
session's identifier — the stale pointer is never kept. -/
theorem reconcile_stale_or_absent_pointer
    (ctx : InitContext) (p : Principal) (st : UIState) (ptr : Option String)
    (S : List ChatSession) (u : User)
    (hp : ¬p.email = "")
    (hreg : ctx.registerUser p.email (resolveRegisterName p) = Except.ok u)
    (hs : ctx.getUserSessions p.email = Except.ok S)
    (hstale : ∀ s ∈ S, some s.id ≠ ptr)
    (o : InitOutcome)
    (ho : initializeUserAndChat ctx (some p) st ptr = o) :
    (∀ s0 t, S = s0 :: t →
        o.ui.chatSession = some s0 ∧ o.pointer = some s0.id ∧
          o.hydrate = true) ∧
      (S = [] →
        ∀ ns, ctx.createChatSession p.email "New Conversation" = Except.ok ns →
          o.ui.chatSession = some ns ∧ o.pointer = some ns.id ∧
            o.hydrate = false) ∧
      (∀ cs, o.ui.chatSession = some cs → o.pointer = some cs.id) := by
  subst ho
  cases ptr with
  | none =>
    cases S with
    | nil =>
      cases hc : ctx.createChatSession p.email "New Conversation" with
      | ok ns => simp [initializeUserAndChat, initHydrate, hp, hreg, hs, hc]
      | error e =>
          simp [initializeUserAndChat, initFailure, hp, hreg, hs, hc]
    | cons a t =>
      cases hf : ctx.fetchMessages a.id with
      | ok ms => simp [initializeUserAndChat, initHydrate, hp, hreg, hs, hf]
      | error e =>
          simp [initializeUserAndChat, initHydrate, hp, hreg, hs, hf]
  | some sid =>
    have hfind : S.find? (fun s => s.id = sid) = none := by
      refine List.find?_eq_none.mpr ?_
      intro x hx
      have hne := hstale x hx
      simp only [ne_eq, Option.some.injEq] at hne
      simpa using hne
    by_cases hsid : sid = ""
    all_goals cases S with
    | nil =>
      cases hc : ctx.createChatSession p.email "New Conversation" with
      | ok ns =>
          simp [initializeUserAndChat, initHydrate, hp, hsid, hreg, hs, hc]
      | error e =>
          simp [initializeUserAndChat, initFailure, hp, hsid, hreg, hs, hc]
    | cons a t =>
      cases hf : ctx.fetchMessages a.id with
      | ok ms =>
          simp [initializeUserAndChat, initHydrate, hp, hsid, hreg, hs,
            hfind, hf]
      | error e =>
          simp [initializeUserAndChat, initHydrate, hp, hsid, hreg, hs,
            hfind, hf]

/-- C1 witness: stale pointer `"stale"` with list `[abc, xyz]` selects and
persists `"abc"`; absent pointer with an empty list persists the id of the
created session. -/
theorem reconcile_stale_or_absent_pointer_witness :
    (initializeUserAndChat wCtx (some wPrincipal) wState
        (some "stale")).ui.chatSession = some wSessA ∧
      (initializeUserAndChat wCtx (some wPrincipal) wState
        (some "stale")).pointer = some "abc" ∧
      (initializeUserAndChat wCtxEmpty (some wPrincipal) wState
        none).pointer = some "fresh" := by
  have h1 := (reconcile_stale_or_absent_pointer wCtx wPrincipal wState
    (some "stale") [wSessA, wSessX] wUser (by decide) rfl rfl (by decide)
    _ rfl).1 wSessA [wSessX] rfl
  have h2 := (reconcile_stale_or_absent_pointer wCtxEmpty wPrincipal wState
    none [] wUser (by decide) rfl rfl (by simp) _ rfl).2.1 rfl wSessNew rfl
  exact ⟨h1.1, h1.2.1, h2.2.1⟩

/-- C5 (amended): when the reconciler ends up hydrating (hydrate = true) and
the message fetch fails, initialization still selects a session, keeps its
identifier as the persisted pointer, surfaces the non-fatal warning
"Failed to load message history", and leaves the displayed message list
unchanged from before the run — so it is empty exactly when initialization
started from a fresh (empty) view; the catch does not clear it. -/
theorem reconcile_hydration_failure_degrades
    (ctx : InitContext) (p : Principal) (st : UIState) (ptr : Option String)
    (S : List ChatSession) (u : User) (e : String)
    (hp : ¬p.email = "")
    (hreg : ctx.registerUser p.email (resolveRegisterName p) = Except.ok u)
    (hs : ctx.getUserSessions p.email = Except.ok S)
    (hf : ∀ sid, ctx.fetchMessages sid = Except.error e)
    (o : InitOutcome)
    (ho : initializeUserAndChat ctx (some p) st ptr = o)
    (hhyd : o.hydrate = true) :
    ∃ cs, o.ui.chatSession = some cs ∧ o.pointer = some cs.id ∧
      o.ui.error = some "Failed to load message history" ∧
      o.ui.messages = st.messages := by
  subst ho
  cases ptr with
  | none =>
    cases S with
    | nil =>
      exfalso
      cases hc : ctx.createChatSession p.email "New Conversation" with
      | ok ns =>
          simp [initializeUserAndChat, initHydrate, hp, hreg, hs, hc] at hhyd
      | error e2 =>
          simp [initializeUserAndChat, initFailure, hp, hreg, hs, hc] at hhyd
    | cons a t =>
      refine ⟨a, ?_⟩
      simp [initializeUserAndChat, initHydrate, hp, hreg, hs, hf a.id]
  | some sid =>
    by_cases hsid : sid = ""
    · cases S with
      | nil =>
        exfalso
        cases hc : ctx.createChatSession p.email "New Conversation" with
        | ok ns =>
            simp [initializeUserAndChat, initHydrate, hp, hsid, hreg, hs,
              hc] at hhyd
        | error e2 =>
            simp [initializeUserAndChat, initFailure, hp, hsid, hreg, hs,
              hc] at hhyd
      | cons a t =>
        refine ⟨a, ?_⟩
        simp [initializeUserAndChat, initHydrate, hp, hsid, hreg, hs,
          hf a.id]
    · cases S with
      | nil =>
        exfalso
        cases hc : ctx.createChatSession p.email "New Conversation" with
        | ok ns =>
            simp [initializeUserAndChat, initHydrate, hp, hsid, hreg, hs,
              hc] at hhyd
        | error e2 =>
            simp [initializeUserAndChat, initFailure, hp, hsid, hreg, hs,
              hc] at hhyd
      | cons a t =>
        cases hfind : (a :: t).find? (fun s => s.id = sid) with
        | some sP =>
          have hid : sP.id = sid := by
            have h := List.find?_some hfind
            simpa using h
          subst hid
          refine ⟨sP, ?_⟩
          simp [initializeUserAndChat, initHydrate, hp, hsid, hreg, hs,
            hfind, hf sP.id]
        | none =>
          refine ⟨a, ?_⟩
          simp [initializeUserAndChat, initHydrate, hp, hsid, hreg, hs,
            hfind, hf a.id]

/-- C5 witness: stored pointer `"abc"`, failing message fetch: the session
stays selected with its pointer, a warning is shown, the view is empty. -/
theorem reconcile_hydration_failure_degrades_witness :
    ∃ cs, (initializeUserAndChat wCtxFetchFail (some wPrincipal) wState
        (some "abc")).ui.chatSession = some cs ∧
      (initializeUserAndChat wCtxFetchFail (some wPrincipal) wState
        (some "abc")).pointer = some cs.id ∧
      (initializeUserAndChat wCtxFetchFail (some wPrincipal) wState
        (some "abc")).ui.error = some "Failed to load message history" ∧
      (initializeUserAndChat wCtxFetchFail (some wPrincipal) wState
        (some "abc")).ui.messages = [] :=
  reconcile_hydration_failure_degrades wCtxFetchFail wPrincipal wState
    (some "abc") [wSessA, wSessX] wUser "network" (by decide) rfl rfl
    (fun _ => rfl) _ rfl rfl

/-- C5 counterexample to the claim as stated: when the effect re-runs over a
view that already displays a message (as after a token refresh) and the
hydration fetch fails, the selected session is kept and the warning is shown,
but the displayed message list is the old non-empty one — not empty: the
inner catch never clears it. -/
theorem reconcile_hydration_failure_nonempty_view :
    (initializeUserAndChat wCtxFetchFail (some wPrincipal) wStateWithHistory
        (some "abc")).hydrate = true ∧
      (initializeUserAndChat wCtxFetchFail (some wPrincipal) wStateWithHistory
        (some "abc")).ui.error = some "Failed to load message history" ∧
      (initializeUserAndChat wCtxFetchFail (some wPrincipal) wStateWithHistory
        (some "abc")).ui.messages = [wOldBubble] ∧
      (initializeUserAndChat wCtxFetchFail (some wPrincipal) wStateWithHistory
        (some "abc")).ui.messages ≠ [] := by
  have hm : (initializeUserAndChat wCtxFetchFail (some wPrincipal)
      wStateWithHistory (some "abc")).ui.messages = [wOldBubble] := rfl
  refine ⟨rfl, rfl, hm, ?_⟩
  rw [hm]
  simp

/-- C6: each of the three initialization failures (identity upsert,
session-list fetch, session creation) surfaces the error, clears the local
pointer, leaves no chat session selected, empties the message list, and the
exact call trace shows a single attempt with no retry. -/
theorem reconcile_failures_abort_and_clear
    (ctx : InitContext) (p : Principal) (st : UIState) (ptr : Option String)
    (hp : ¬p.email = "")
    (o : InitOutcome)
    (ho : initializeUserAndChat ctx (some p) st ptr = o) :
    (∀ e, ctx.registerUser p.email (resolveRegisterName p) = Except.error e →
        o.ui.error = some e ∧ o.pointer = none ∧ o.ptrOps = [PtrOp.clear] ∧
          o.ui.chatSession = none ∧ o.ui.messages = [] ∧
          o.calls = [BackendCall.registerUser p.email
            (resolveRegisterName p)]) ∧
      (∀ u e, ctx.registerUser p.email (resolveRegisterName p) = Except.ok u →
        ctx.getUserSessions p.email = Except.error e →
        o.ui.error = some e ∧ o.pointer = none ∧ o.ptrOps = [PtrOp.clear] ∧
          o.ui.chatSession = none ∧ o.ui.messages = [] ∧
          o.calls = [BackendCall.registerUser p.email (resolveRegisterName p),
            BackendCall.getUserSessions p.email]) ∧
      (∀ u e, ctx.registerUser p.email (resolveRegisterName p) = Except.ok u →
        ctx.getUserSessions p.email = Except.ok [] →
        ctx.createChatSession p.email "New Conversation" = Except.error e →
        o.ui.error = some e ∧ o.pointer = none ∧ o.ptrOps = [PtrOp.clear] ∧
          o.ui.chatSession = none ∧ o.ui.messages = [] ∧
          o.calls = [BackendCall.registerUser p.email (resolveRegisterName p),
            BackendCall.getUserSessions p.email,
            BackendCall.createChatSession p.email "New Conversation"]) := by
  subst ho
  refine ⟨?_, ?_, ?_⟩
  · intro e hreg
    simp [initializeUserAndChat, initFailure, hp, hreg]
  · intro u e hreg hs
    simp [initializeUserAndChat, initFailure, hp, hreg, hs]
  · intro u e hreg hs hc
    cases ptr with
    | none => simp [initializeUserAndChat, initFailure, hp, hreg, hs, hc]
    | some sid =>
        by_cases hsid : sid = "" <;>
          simp [initializeUserAndChat, initFailure, hp, hsid, hreg, hs, hc]

/-- C6 witness: the three failure backends each abort with a cleared pointer
and a surfaced error. -/
theorem reconcile_failures_abort_and_clear_witness :
    (initializeUserAndChat wCtxRegFail (some wPrincipal) wState
        (some "abc")).pointer = none ∧
      (initializeUserAndChat wCtxListFail (some wPrincipal) wState
        (some "abc")).pointer = none ∧
      (initializeUserAndChat wCtxCreateFail (some wPrincipal) wState
        (some "abc")).ui.error = some "create down" := by
  refine ⟨?_, ?_, ?_⟩
  · exact ((reconcile_failures_abort_and_clear wCtxRegFail wPrincipal wState
      (some "abc") (by decide) _ rfl).1 "register down" rfl).2.1
  · exact ((reconcile_failures_abort_and_clear wCtxListFail wPrincipal wState
      (some "abc") (by decide) _ rfl).2.1 wUser "list down" rfl rfl).2.1
  · exact ((reconcile_failures_abort_and_clear wCtxCreateFail wPrincipal
      wState (some "abc") (by decide) _ rfl).2.2 wUser "create down" rfl rfl
      rfl).1

/-- C8: a sign-out (the auth listener firing with no principal, followed by
the reconciler re-running with no principal) clears the active chat session,
the cached user and the message list, clears the local pointer, and issues
no backend call. -/
theorem signout_clears_state_and_calls_nothing
    (ctx : InitContext) (st : UIState) (ptr : Option String) :
    (signOutReconcile ctx st ptr).ui.chatSession = none ∧
      (signOutReconcile ctx st ptr).ui.currentUser = none ∧
      (signOutReconcile ctx st ptr).ui.messages = [] ∧
      (signOutReconcile ctx st ptr).pointer = none ∧
      (signOutReconcile ctx st ptr).ptrOps = [PtrOp.clear] ∧
      (signOutReconcile ctx st ptr).calls = [] :=
  ⟨rfl, rfl, rfl, rfl, rfl, rfl⟩

/-- C9: in every reconciler run a pointer save is never speculative — the
saved identifier is the final persisted pointer and the identifier of the
selected session; a pointer clear happens only when a stale stored pointer is
discarded or on unrecoverable initialization failure; and the sign-out
listener performs exactly one clear. -/
theorem reconcile_pointer_write_discipline
    (ctx : InitContext) (sess : Option Principal) (st : UIState)
    (ptr : Option String) (o : InitOutcome)
    (ho : initializeUserAndChat ctx sess st ptr = o) :
    (∀ i, PtrOp.save i ∈ o.ptrOps →
        o.pointer = some i ∧ ∃ cs, o.ui.chatSession = some cs ∧ cs.id = i) ∧
      (PtrOp.clear ∈ o.ptrOps →
        (∃ p sid S, sess = some p ∧ ptr = some sid ∧
            ctx.getUserSessions p.email = Except.ok S ∧ S ≠ [] ∧
            S.find? (fun s => s.id = sid) = none) ∨
          (o.ui.error.isSome ∧ o.ui.chatSession = none ∧
            o.pointer = none)) ∧
      (handleAuthStateChange none st ptr).2.2 = [PtrOp.clear] := by
  subst ho
  cases sess with
  | none => simp [initializeUserAndChat, initNoPrincipal, handleAuthStateChange]
  | some p =>
    by_cases hp : p.email = ""
    · simp [initializeUserAndChat, initNoPrincipal, handleAuthStateChange, hp]
    cases hreg : ctx.registerUser p.email (resolveRegisterName p) with
    | error e =>
        simp [initializeUserAndChat, initFailure, handleAuthStateChange,
          hp, hreg]
    | ok u =>
      cases hs : ctx.getUserSessions p.email with
      | error e =>
          simp [initializeUserAndChat, initFailure, handleAuthStateChange,
            hp, hreg, hs]
      | ok S =>
        cases S with
        | nil =>
          cases hc : ctx.createChatSession p.email "New Conversation" with
          | error e =>
              cases ptr with
              | none =>
                  simp [initializeUserAndChat, initFailure,
                    handleAuthStateChange, hp, hreg, hs, hc]
              | some sid =>
                  by_cases hsid : sid = "" <;>
                    simp [initializeUserAndChat, initFailure,
                      handleAuthStateChange, hp, hsid, hreg, hs, hc]
          | ok ns =>
              cases ptr with
              | none =>
                  simp [initializeUserAndChat, initHydrate,
                    handleAuthStateChange, hp, hreg, hs, hc]
              | some sid =>
                  by_cases hsid : sid = "" <;>
                    simp [initializeUserAndChat, initHydrate,
                      handleAuthStateChange, hp, hsid, hreg, hs, hc]
        | cons a t =>
          cases ptr with
          | none =>
            cases hf : ctx.fetchMessages a.id with
            | ok ms =>
                simp [initializeUserAndChat, initHydrate,
                  handleAuthStateChange, hp, hreg, hs, hf]
            | error e =>
                simp [initializeUserAndChat, initHydrate,
                  handleAuthStateChange, hp, hreg, hs, hf]
          | some sid =>
            by_cases hsid : sid = ""
            · cases hf : ctx.fetchMessages a.id with
              | ok ms =>
                  simp [initializeUserAndChat, initHydrate,
                    handleAuthStateChange, hp, hsid, hreg, hs, hf]
              | error e =>
                  simp [initializeUserAndChat, initHydrate,
                    handleAuthStateChange, hp, hsid, hreg, hs, hf]
            cases hfind : (a :: t).find? (fun s => s.id = sid) with
            | some sP =>
              cases hf : ctx.fetchMessages sP.id with
              | ok ms =>
                  simp [initializeUserAndChat, initHydrate,
                    handleAuthStateChange, hp, hsid, hreg, hs, hfind, hf]
              | error e =>
                  simp [initializeUserAndChat, initHydrate,
                    handleAuthStateChange, hp, hsid, hreg, hs, hfind, hf]
            | none =>
              have hnone : ∀ x ∈ a :: t, ¬x.id = sid := by
                have h := List.find?_eq_none.mp hfind
                simpa using h
              cases hf : ctx.fetchMessages a.id with
              | ok ms =>
                  simp [initializeUserAndChat, initHydrate,
                    handleAuthStateChange, hp, hsid, hreg, hs, hfind, hf]
                  exact ⟨hnone a (List.mem_cons_self a t),
                    fun x hx => hnone x (List.mem_cons_of_mem a hx)⟩
              | error e =>
                  simp [initializeUserAndChat, initHydrate,
                    handleAuthStateChange, hp, hsid, hreg, hs, hfind, hf]
                  exact ⟨hnone a (List.mem_cons_self a t),
                    fun x hx => hnone x (List.mem_cons_of_mem a hx)⟩

/-- C9 witness: in the stale-pointer run, the recorded save is exactly the
finally persisted pointer `"abc"`. -/
theorem reconcile_pointer_write_discipline_witness :
    (initializeUserAndChat wCtx (some wPrincipal) wState
        (some "stale")).pointer = some "abc" :=
  ((reconcile_pointer_write_discipline wCtx (some wPrincipal) wState
    (some "stale") _ rfl).1 "abc" (by decide)).1

/-- C7: a fully successful send performs exactly the ordered sequence
append-user, synthesize, append-assistant: the message store receives the
user row strictly before the assistant row, and the view then shows the user
bubble followed by the assistant bubble carrying the returned sources. -/
theorem submit_success_ordered_sequence
    (ctx : SubmitContext) (p : Principal) (st : UIState)
    (store : List StoredMessage) (now : Nat) (cs : ChatSession)
    (data : ChatResponse)
    (hp : ¬p.email = "")
    (hin : ¬jsTrim st.input = "")
    (hcs : st.chatSession = some cs)
    (h1 : ctx.storeMessage cs.id Role.user st.input = Except.ok ())
    (h2 : ctx.sendChatMessage st.input = Except.ok data)
    (h3 : ctx.storeMessage cs.id Role.assistant data.final_answer
      = Except.ok ())
    (o : SubmitOutcome)
    (ho : handleSubmit ctx (some p) st store now = o) :
    o.calls = [BackendCall.storeMessage cs.id Role.user st.input,
        BackendCall.sendChatMessage st.input,
        BackendCall.storeMessage cs.id Role.assistant data.final_answer] ∧
      o.store = store ++
        [{ session_id := cs.id, role := Role.user, content := st.input },
          { session_id := cs.id, role := Role.assistant,
            content := data.final_answer }] ∧
      o.ui.messages = st.messages ++
        [{ id := toString now, type := MsgType.user, content := st.input,
            sources := none },
          { id := toString (now + 1), type := MsgType.ai,
            content := if data.final_answer = "" then "No response generated"
              else data.final_answer,
            sources := some (data.sources.getD []) }] ∧
      o.ui.error = none := by
  subst ho
  simp [handleSubmit, hp, hin, hcs, h1, h2, h3]

/-- C7 witness: sending "What is Spectra?" with a two-source answer issues
user-store, synthesize, assistant-store in that order and persists the rows
in that order. -/
theorem submit_success_ordered_sequence_witness :
    (handleSubmit wSubCtx (some wPrincipal) wSubmitState [] 5).calls =
        [BackendCall.storeMessage "abc" Role.user "What is Spectra?",
          BackendCall.sendChatMessage "What is Spectra?",
          BackendCall.storeMessage "abc" Role.assistant "Spectra is..."] ∧
      (handleSubmit wSubCtx (some wPrincipal) wSubmitState [] 5).store =
        [{ session_id := "abc", role := Role.user,
            content := "What is Spectra?" },
          { session_id := "abc", role := Role.assistant,
            content := "Spectra is..." }] := by
  have h := submit_success_ordered_sequence wSubCtx wPrincipal wSubmitState
    [] 5 wSessA
    { query := "What is Spectra?", sources := some [wSource1, wSource2],
      final_answer := "Spectra is..." }
    (by decide) (by decide) rfl rfl rfl rfl _ rfl
  exact ⟨h.1, h.2.1⟩

/-- C4: when the user-message append succeeds and synthesis or the
assistant-message append then fails, the user row stays persisted exactly
once, the user bubble stays visible exactly once, an error is surfaced for
the attempt, and the exact call trace shows no retry. -/
theorem submit_failure_preserves_user_message
    (ctx : SubmitContext) (p : Principal) (st : UIState)
    (store : List StoredMessage) (now : Nat) (cs : ChatSession)
    (hp : ¬p.email = "")
    (hin : ¬jsTrim st.input = "")
    (hcs : st.chatSession = some cs)
    (h1 : ctx.storeMessage cs.id Role.user st.input = Except.ok ())
    (hfail : (∃ e, ctx.sendChatMessage st.input = Except.error e) ∨
      ∃ data e, ctx.sendChatMessage st.input = Except.ok data ∧
        ctx.storeMessage cs.id Role.assistant data.final_answer
          = Except.error e)
    (o : SubmitOutcome)
    (ho : handleSubmit ctx (some p) st store now = o) :
    o.store = store ++
        [{ session_id := cs.id, role := Role.user, content := st.input }] ∧
      o.ui.messages = st.messages ++
        [{ id := toString now, type := MsgType.user, content := st.input,
            sources := none }] ∧
      (∃ e, o.ui.error = some e) ∧
      (o.calls = [BackendCall.storeMessage cs.id Role.user st.input,
          BackendCall.sendChatMessage st.input] ∨
        ∃ fa, o.calls = [BackendCall.storeMessage cs.id Role.user st.input,
          BackendCall.sendChatMessage st.input,
          BackendCall.storeMessage cs.id Role.assistant fa]) := by
  subst ho
  rcases hfail with ⟨e, he⟩ | ⟨data, e, hd, he⟩
  · simp [handleSubmit, submitFailure, hp, hin, hcs, h1, he]
  · simp [handleSubmit, submitFailure, hp, hin, hcs, h1, hd, he]

/-- C4 witness: with synthesis failing after the user row was stored, the
user row is persisted once and an error is surfaced. -/
theorem submit_failure_preserves_user_message_witness :
    (handleSubmit wSubCtxSynthFail (some wPrincipal) wSubmitState [] 5).store
        = [{ session_id := "abc", role := Role.user,
             content := "What is Spectra?" }] ∧
      ∃ e, (handleSubmit wSubCtxSynthFail (some wPrincipal) wSubmitState
        [] 5).ui.error = some e := by
  have h := submit_failure_preserves_user_message wSubCtxSynthFail wPrincipal
    wSubmitState [] 5 wSessA (by decide) (by decide) rfl rfl
    (Or.inl ⟨"synthesis down", rfl⟩) _ rfl
  exact ⟨h.1, h.2.2.1⟩

/-- C10: on a successful send, the assistant row persisted to the store
holds the raw `final_answer` while the rendered assistant bubble holds it
only when non-empty (an empty answer renders the placeholder
"No response generated"); rendered and persisted content agree exactly when
`final_answer` is non-empty. -/
theorem submit_empty_answer_renders_placeholder
    (ctx : SubmitContext) (p : Principal) (st : UIState)
    (store : List StoredMessage) (now : Nat) (cs : ChatSession)
    (data : ChatResponse)
    (hp : ¬p.email = "")
    (hin : ¬jsTrim st.input = "")
    (hcs : st.chatSession = some cs)
    (h1 : ctx.storeMessage cs.id Role.user st.input = Except.ok ())
    (h2 : ctx.sendChatMessage st.input = Except.ok data)
    (h3 : ctx.storeMessage cs.id Role.assistant data.final_answer
      = Except.ok ())
    (o : SubmitOutcome)
    (ho : handleSubmit ctx (some p) st store now = o) :
    ∃ m, o.ui.messages = st.messages ++
        [{ id := toString now, type := MsgType.user, content := st.input,
            sources := none }, m] ∧
      o.store = store ++
        [{ session_id := cs.id, role := Role.user, content := st.input },
          { session_id := cs.id, role := Role.assistant,
            content := data.final_answer }] ∧
      m.content = (if data.final_answer = "" then "No response generated"
        else data.final_answer) ∧
      (m.content = data.final_answer ↔ data.final_answer ≠ "") := by
  subst ho
  refine
    ⟨{ id := toString (now + 1)
       type := MsgType.ai
       content := if data.final_answer = "" then "No response generated"
         else data.final_answer
       sources := some (data.sources.getD []) }, ?_, ?_, rfl, ?_⟩
  · simp [handleSubmit, hp, hin, hcs, h1, h2, h3]
  · simp [handleSubmit, hp, hin, hcs, h1, h2, h3]
  · by_cases hfa : data.final_answer = "" <;> simp [hfa]

/-- C10 witness: an empty synthesized answer is persisted as the empty
string while the view renders "No response generated". -/
theorem submit_empty_answer_renders_placeholder_witness :
    ∃ m, (handleSubmit wSubCtxEmptyAnswer (some wPrincipal) wSubmitState
          [] 5).ui.messages
        = wSubmitState.messages ++
          [{ id := toString 5, type := MsgType.user,
              content := "What is Spectra?", sources := none }, m] ∧
      (handleSubmit wSubCtxEmptyAnswer (some wPrincipal) wSubmitState
          [] 5).store
        = [{ session_id := "abc", role := Role.user,
              content := "What is Spectra?" },
            { session_id := "abc", role := Role.assistant, content := "" }] ∧
      m.content = "No response generated" ∧
      (m.content = "" ↔ ("" : String) ≠ "") := by
  have h := submit_empty_answer_renders_placeholder wSubCtxEmptyAnswer
    wPrincipal wSubmitState [] 5 wSessA
    { query := "What is Spectra?", sources := none, final_answer := "" }
    (by decide) (by decide) rfl rfl rfl rfl _ rfl
  exact h

end Spectra
